import Mathlib

/-!
Verification of the GenFit material-effects module
(`trackReps/src/MaterialEffects.cc`).

This file contains a shallow embedding of the module and proofs about its
behaviour.  C++ `double` arithmetic is modelled by exact real arithmetic
(`ℝ`); thrown C++ exceptions are modelled by `Except`; the mutable state of
the `MaterialEffects` class (a process-wide singleton) is modelled by an
explicit state record that is threaded through the functions.  Line numbers
in the doc comments refer to `MaterialEffects.cc`.
-/

namespace genfit

/-- An exception thrown by the module.  The `fatal` flag models
`Exception::setFatal()`; a `std::runtime_error` (which carries no fatal flag)
is modelled with `fatal := false`. -/
structure GFException where
  msg : String
  fatal : Bool
deriving Repr, DecidableEq

/-- The state held by the `MaterialEffects` singleton (constructor at lines
42–60).  Field names follow the C++ data members.  The pointer
`materialInterface_` is modelled as an optional handle identity. -/
structure MEState where
  noEffects_ : Bool
  energyLossBetheBloch_ : Bool
  noiseBetheBloch_ : Bool
  noiseCoulomb_ : Bool
  energyLossBrems_ : Bool
  noiseBrems_ : Bool
  ignoreBoundariesBetweenEqualMaterials_ : Bool
  stepSize_ : ℝ
  dEdx_ : ℝ
  E_ : ℝ
  matDensity_ : ℝ
  matZ_ : ℝ
  matA_ : ℝ
  radiationLength_ : ℝ
  mEE_ : ℝ
  mscModelCode_ : ℕ
  materialInterface_ : Option ℕ
  debugLvl_ : ℕ

/-- The member initialisation performed by the constructor
`MaterialEffects::MaterialEffects()` (lines 42–60). -/
noncomputable def MEState.initial : MEState :=
  { noEffects_ := false
    energyLossBetheBloch_ := true
    noiseBetheBloch_ := true
    noiseCoulomb_ := true
    energyLossBrems_ := true
    noiseBrems_ := true
    ignoreBoundariesBetweenEqualMaterials_ := true
    stepSize_ := 0
    dEdx_ := 0
    E_ := 0
    matDensity_ := 0
    matZ_ := 0
    matA_ := 0
    radiationLength_ := 0
    mEE_ := 0
    mscModelCode_ := 0
    materialInterface_ := none
    debugLvl_ := 0 }

/-- Modelled from the spec: the electron-mass constant `me_` [GeV] is defined
in the class header, which is not among the provided sources; this is the
standard value GenFit uses. -/
noncomputable def me_ : ℝ := 0.000510998910

/-- Modelled from the spec: particle masses [GeV] come from the external
particle-database service (`TDatabasePDG`), which is not part of this
repository.  Values for the species the spec mentions (electron, muon, pion,
proton and their antiparticles); other codes default to `0`. -/
noncomputable def getParticleMass : ℤ → ℝ
  | 11 => me_
  | -11 => me_
  | 13 => 0.1056583715
  | -13 => 0.1056583715
  | 211 => 0.13957018
  | -211 => 0.13957018
  | 2212 => 0.938272046
  | _ => 0

/-- Modelled from the spec: particle charges [units of e] come from the
external particle-database service (`TDatabasePDG`). -/
noncomputable def getParticleCharge : ℤ → ℝ
  | 11 => -1
  | -11 => 1
  | 13 => -1
  | -13 => 1
  | 211 => 1
  | -211 => -1
  | 2212 => 1
  | _ => 0

/-- `MaterialEffects::init` (lines 81–88).  When `materialInterface_` is
already set, the source constructs a `std::runtime_error` with the message
"Already initialized!" but never throws it (there is no `throw` statement),
and then unconditionally overwrites the handle with the new one.  The
embedding therefore returns normally in both cases. -/
noncomputable def init (s : MEState) (matIfc : ℕ) : MEState :=
  { s with materialInterface_ := some matIfc }

/-- `MaterialEffects::setMscModel` (lines 92–105): "GEANE" selects model
code 0, "Highland" selects model code 1, and any other name throws a fatal
`Exception` before any assignment to `mscModelCode_`. -/
noncomputable def setMscModel (s : MEState) (modelName : String) :
    Except GFException MEState :=
  if modelName = "GEANE" then .ok { s with mscModelCode_ := 0 }
  else if modelName = "Highland" then .ok { s with mscModelCode_ := 1 }
  else .error { msg := "There is no MSC model called " ++ modelName, fatal := true }

/-- `MaterialEffects::dEdxBetheBloch` (lines 438–460).  Throws a fatal
exception if `beta*gamma < 0.05`; otherwise evaluates the Bethe–Bloch mean
ionization loss rate [GeV/cm], floor-clamped to zero. -/
noncomputable def dEdxBetheBloch (s : MEState)
    (betaSquare gamma gammaSquare mass charge : ℝ) : Except GFException ℝ :=
  let betaGammaMin : ℝ := 0.05
  if betaSquare * gammaSquare < betaGammaMin * betaGammaMin then
    .error { msg := "dEdxBetheBloch: beta*gamma < 0.05, Bethe-Bloch not valid anymore",
             fatal := true }
  else
    let result := 0.307075 * s.matZ_ / s.matA_ * s.matDensity_ / betaSquare * charge * charge
    let massRatio := me_ / mass
    let argument := gammaSquare * betaSquare * me_ * 1e3 * 2 /
      ((1e-6 * s.mEE_) * Real.sqrt (1 + 2 * gamma * massRatio + massRatio * massRatio))
    let result := result * (Real.log argument - betaSquare) * 1e-3
    .ok (if result < 0 then 0 else result)

/-- The coefficient table `C[101]` of `dEdxBrems` (line 605; the
`#if !defined(BETHE)` branch, which is the one compiled). -/
noncomputable def dEdxBremsCList : List ℝ :=
  [0.0, -0.960613e-1, 0.631029e-1, -0.142819e-1, 0.150437e-2, -0.733286e-4,
   0.131404e-5, 0.859343e-1, -0.529023e-1, 0.131899e-1, -0.159201e-2,
   0.926958e-4, -0.208439e-5, -0.684096e1, 0.370364e1, -0.786752,
   0.822670e-1, -0.424710e-2, 0.867980e-4, -0.200856e1, 0.129573e1,
   -0.306533, 0.343682e-1, -0.185931e-2, 0.392432e-4, 0.127538e1,
   -0.515705, 0.820644e-1, -0.641997e-2, 0.245913e-3, -0.365789e-5,
   0.115792, -0.463143e-1, 0.725442e-2, -0.556266e-3, 0.208049e-4,
   -0.300895e-6, -0.271082e-1, 0.173949e-1, -0.452531e-2, 0.569405e-3,
   -0.344856e-4, 0.803964e-6, 0.419855e-2, -0.277188e-2, 0.737658e-3,
   -0.939463e-4, 0.569748e-5, -0.131737e-6, -0.318752e-3, 0.215144e-3,
   -0.579787e-4, 0.737972e-5, -0.441485e-6, 0.994726e-8, 0.938233e-5,
   -0.651642e-5, 0.177303e-5, -0.224680e-6, 0.132080e-7, -0.288593e-9,
   -0.245667e-3, 0.833406e-4, -0.129217e-4, 0.915099e-6, -0.247179e-7,
   0.147696e-3, -0.498793e-4, 0.402375e-5, 0.989281e-7, -0.133378e-7,
   -0.737702e-2, 0.333057e-2, -0.553141e-3, 0.402464e-4, -0.107977e-5,
   -0.641533e-2, 0.290113e-2, -0.477641e-3, 0.342008e-4, -0.900582e-6,
   0.574303e-5, 0.908521e-4, -0.256900e-4, 0.239921e-5, -0.741271e-7,
   -0.341260e-4, 0.971711e-5, -0.172031e-6, -0.119455e-6, 0.704166e-8,
   0.341740e-5, -0.775867e-6, -0.653231e-7, 0.225605e-7, -0.114860e-8,
   -0.119391e-6, 0.194885e-7, 0.588959e-8, -0.127589e-8, 0.608247e-10]

/-- Entry lookup in the `C` table. -/
noncomputable def dEdxBremsC (k : ℕ) : ℝ := dEdxBremsCList.getD k 0

/-- `MaterialEffects::dEdxBrems` (lines 597–771): soft-bremsstrahlung mean
loss rate for electrons and positrons, zero for every other species.  Total
(it never throws).  The two nested `for` loops accumulating `S` and `SS` are
rendered as finite sums over the same index ranges; integral `pow` calls
(`pow(RLAMAX, 3.)` style) are rendered as monomial powers, which agree with C
`pow` on every real base; `BCUT` is clamped to `mom` inside the statically
true `if (BCUT > 0.)`, so the clamped value is hoisted out to be visible to
the positron-correction block, exactly as in the source where the variable
`BCUT` persists. -/
noncomputable def dEdxBrems (s : MEState) (mom : ℝ) (pdg : ℤ) : ℝ :=
  if pdg = 11 ∨ pdg = -11 then
    let xi : ℝ := 2.51
    let beta : ℝ := 0.99
    let vl : ℝ := 0.00004
    let BCUT0 : ℝ := 10000
    let THIGH : ℝ := 100
    let CHIGH : ℝ := 50
    let BCUT := if BCUT0 > mom then mom else BCUT0
    let dedxBrems0 : ℝ :=
      if 0 < BCUT0 then
        let T := if mom > THIGH then THIGH else mom
        let kc0 := if mom > THIGH then (if BCUT ≥ THIGH then CHIGH else BCUT) else BCUT
        let E := T + me_
        let kc := if BCUT > T then T else kc0
        let X := Real.log (T / me_)
        let Y := Real.log (kc / (E * vl))
        let S := (∑ i in Finset.Icc 1 2, ∑ j in Finset.Icc 1 6,
                    dEdxBremsC (6*i + j - 6) * X^(j-1) * Y^(i-1))
                 + (∑ i in Finset.Icc 3 6, ∑ j in Finset.Icc 1 6,
                    dEdxBremsC ((6*i + j - 6) + if 0 < Y then 24 else 0) * X^(j-1) * Y^(i-1))
        let SS := (∑ i in Finset.Icc 1 2, ∑ j in Finset.Icc 1 5,
                    dEdxBremsC (5*i + j + 55) * X^(j-1) * Y^(i-1))
                  + (∑ i in Finset.Icc 3 5, ∑ j in Finset.Icc 1 5,
                    dEdxBremsC ((5*i + j + 55) + if 0 < Y then 15 else 0) * X^(j-1) * Y^(i-1))
        let Stot := S + s.matZ_ * SS
        if 0 < Stot then
          let CORR := 1 / (1 + 0.805485e-10 * s.matDensity_ * s.matZ_ * E * E /
                             (s.matA_ * kc * kc))
          let FAC := s.matZ_ * (s.matZ_ + xi) * E * E / (E + me_) *
                       Real.exp (beta * Real.log (kc * CORR / T))
          if FAC ≤ 0 then 0
          else
            let d0 := FAC * Stot
            let d1 :=
              if mom ≥ THIGH then
                let SC :=
                  if BCUT < THIGH then
                    (1 - 0.5 * (BCUT/mom) + 2 * (BCUT/mom)^2 / 9) /
                      (1 - 0.5 * (BCUT/T) + 2 * (BCUT/T)^2 / 9)
                  else
                    (BCUT * (1 - 0.5 * (BCUT/mom) + 2 * (BCUT/mom)^2 / 9)) /
                      (kc * (1 - 0.5 * (kc/T) + 2 * (kc/T)^2 / 9))
                d0 * SC
              else d0
            d1 * 0.60221367 * s.matDensity_ / s.matA_
        else 0
      else 0
    let dedxBrems1 := if dedxBrems0 < 0 then 0 else dedxBrems0
    let factor : ℝ :=
      if pdg = -11 then
        let ETA : ℝ :=
          if 0 < s.matZ_ then
            let XP := Real.log (7522100 * mom / (s.matZ_ * s.matZ_))
            if -8 < XP then
              if XP ≥ 9 then 1
              else
                let W := 0.415 * XP + 0.0021 * XP^3 + 0.00054 * XP^5
                0.5 + Real.arctan W / Real.pi
            else 0
          else 0
        if ETA < 0.0001 then 1e-10
        else if ETA > 0.9999 then 1
        else
          let E0 := if BCUT / mom > 1 then 1 else BCUT / mom
          if E0 < 1e-8 then 1
          else ETA * (1 - (1 - E0) ^ ((1:ℝ) / ETA)) / E0
      else 1
    factor * dedxBrems1
  else 0

/-- `MaterialEffects::dEdx` (lines 413–435).  Fatal if `energy <= mass`;
otherwise the sum of the enabled ionization and radiative terms. -/
noncomputable def dEdx (s : MEState) (energy mass charge : ℝ) (pdg : ℤ) :
    Except GFException ℝ :=
  if energy ≤ mass then
    .error { msg := "MaterialEffects dEdx: Energy <= mass", fatal := true }
  else
    let gamma := energy / mass
    let gammaSquare := gamma * gamma
    let betaSquare := 1 - 1 / gammaSquare
    let mom := energy * Real.sqrt betaSquare
    (if s.energyLossBetheBloch_ then
        dEdxBetheBloch s betaSquare gamma gammaSquare mass charge
      else .ok 0).map
      (fun r => r + (if s.energyLossBrems_ then dEdxBrems s mom pdg else 0))

/-- `MaterialEffects::momentumLoss` (lines 349–410).  `hypot(mom, mass)` is
rendered as `Real.sqrt (mom*mom + mass*mass)`.  The RK4 mean loss rate is
stored in the state field `dEdx_` and the mid-step energy in `E_`; the
returned momentum loss saturates at `mom` when the step would stop the
particle. -/
noncomputable def momentumLoss (s : MEState) (stepSign mom : ℝ) (linear : Bool)
    (pdg : ℤ) : Except GFException (ℝ × MEState) :=
  let mass := getParticleMass pdg
  let charge := getParticleCharge pdg
  let E0 := Real.sqrt (mom * mom + mass * mass)
  let step := s.stepSize_ * stepSign
  (dEdx s E0 mass charge pdg).bind fun dEdx1 =>
  (if linear then .ok dEdx1
   else
     (dEdx s (E0 - dEdx1 * step / 2) mass charge pdg).bind fun dEdx2 =>
     (dEdx s (E0 - dEdx2 * step / 2) mass charge pdg).bind fun dEdx3 =>
     (dEdx s (E0 - dEdx3 * step) mass charge pdg).map fun dEdx4 =>
       (dEdx1 + 2 * dEdx2 + 2 * dEdx3 + dEdx4) / 6).bind fun dEdxMean =>
  let s1 := { s with dEdx_ := dEdxMean, E_ := E0 - dEdxMean * step * 0.5 }
  let dE := step * dEdxMean
  if E0 - dE ≤ mass then .ok (mom, s1)
  else .ok (mom - Real.sqrt ((E0 - dE)^2 - mass * mass), s1)

/-- The 7×7 process-noise matrix (`M7x7` in the source, row-major). -/
abbrev M7x7 := Matrix (Fin 7) (Fin 7) ℝ

/-- The characteristic collision-energy scale `zeta` [eV] of
`MaterialEffects::noiseBetheBloch` (line 472). -/
noncomputable def bbZeta (s : MEState) (betaSquare charge : ℝ) : ℝ :=
  153.4e3 * charge * charge / betaSquare * s.matZ_ / s.matA_ *
    s.matDensity_ * |s.stepSize_|

/-- The maximum single-collision energy transfer `Emax` [eV] (line 473). -/
noncomputable def bbEmax (betaSquare gamma gammaSquare mass : ℝ) : ℝ :=
  2e9 * me_ * betaSquare * gammaSquare /
    (1 + 2 * gamma * me_ / mass + me_ / mass * (me_ / mass))

/-- The Urban-model mean ionisation energy `I = 16 Z^0.9` [eV] (line 480). -/
noncomputable def bbUrbanI (s : MEState) : ℝ := 16 * s.matZ_ ^ (0.9 : ℝ)

/-- The oscillator-strength split `f2` (lines 481–482). -/
noncomputable def bbF2 (s : MEState) : ℝ := if s.matZ_ > 2 then 2 / s.matZ_ else 0

/-- `f1 = 1 - f2` (line 483). -/
noncomputable def bbF1 (s : MEState) : ℝ := 1 - bbF2 s

/-- The second oscillator energy `e2 = 10 Z²` [eV] (line 484). -/
noncomputable def bbE2 (s : MEState) : ℝ := 10 * s.matZ_ * s.matZ_

/-- The first oscillator energy `e1` [eV] (line 485). -/
noncomputable def bbE1 (s : MEState) : ℝ := (bbUrbanI s / bbE2 s ^ bbF2 s) ^ (1 / bbF1 s)

/-- `mbbgg2 = 2e9 m β² γ²` [eV] (line 487). -/
noncomputable def bbMbbgg2 (betaSquare gammaSquare mass : ℝ) : ℝ :=
  2e9 * mass * betaSquare * gammaSquare

/-- The collision rate `Sigma1` [1/cm] (line 488). -/
noncomputable def bbSigma1 (s : MEState) (betaSquare gammaSquare mass : ℝ) : ℝ :=
  s.dEdx_ * 1e9 * bbF1 s / bbE1 s *
    (Real.log (bbMbbgg2 betaSquare gammaSquare mass / bbE1 s) - betaSquare) /
    (Real.log (bbMbbgg2 betaSquare gammaSquare mass / bbUrbanI s) - betaSquare) * 0.6

/-- The collision rate `Sigma2` [1/cm] (line 489). -/
noncomputable def bbSigma2 (s : MEState) (betaSquare gammaSquare mass : ℝ) : ℝ :=
  s.dEdx_ * 1e9 * bbF2 s / bbE2 s *
    (Real.log (bbMbbgg2 betaSquare gammaSquare mass / bbE2 s) - betaSquare) /
    (Real.log (bbMbbgg2 betaSquare gammaSquare mass / bbUrbanI s) - betaSquare) * 0.6

/-- The collision rate `Sigma3` [1/cm] (line 490). -/
noncomputable def bbSigma3 (s : MEState) (betaSquare gamma gammaSquare mass : ℝ) : ℝ :=
  s.dEdx_ * 1e9 * bbEmax betaSquare gamma gammaSquare mass /
    (bbUrbanI s * (bbEmax betaSquare gamma gammaSquare mass + bbUrbanI s) *
      Real.log ((bbEmax betaSquare gamma gammaSquare mass + bbUrbanI s) / bbUrbanI s)) * 0.4

/-- The collision count `Nc` (line 492). -/
noncomputable def bbNc (s : MEState) (betaSquare gamma gammaSquare mass : ℝ) : ℝ :=
  (bbSigma1 s betaSquare gammaSquare mass + bbSigma2 s betaSquare gammaSquare mass +
    bbSigma3 s betaSquare gamma gammaSquare mass) * |s.stepSize_|

/-- `Ealpha` of the few-collision Urban model (line 513), `alpha = 0.996`. -/
noncomputable def bbEalpha (s : MEState) (betaSquare gamma gammaSquare mass : ℝ) : ℝ :=
  bbUrbanI s / (1 - 0.996 * bbEmax betaSquare gamma gammaSquare mass /
    (bbEmax betaSquare gamma gammaSquare mass + bbUrbanI s))

/-- `meanE32` of the few-collision Urban model (line 514). -/
noncomputable def bbMeanE32 (s : MEState) (betaSquare gamma gammaSquare mass : ℝ) : ℝ :=
  bbUrbanI s * (bbEmax betaSquare gamma gammaSquare mass + bbUrbanI s) /
    bbEmax betaSquare gamma gammaSquare mass *
    (bbEalpha s betaSquare gamma gammaSquare mass - bbUrbanI s)

/-- The energy-loss-fluctuation variance `sigma2E` [eV²] computed by
`MaterialEffects::noiseBetheBloch` (lines 470–517), before the `1e-18`
eV→GeV rescaling, assembled from the named local quantities above exactly
as in the source.  `sigma2E` starts at `0` and each regime adds its
contribution, so it equals the value of the selected branch.  The dead
initialisation `sigmaalpha = 15.76` (line 495) is always overwritten.
Integral `pow` calls are rendered as monomial powers, which agree with C
`pow` on every real base. -/
noncomputable def noiseBetheBlochSigma2E (s : MEState)
    (betaSquare gamma gammaSquare charge mass : ℝ) : ℝ :=
  let zeta := bbZeta s betaSquare charge
  let Emax := bbEmax betaSquare gamma gammaSquare mass
  if zeta / Emax > 0.01 then
    zeta * Emax * (1 - betaSquare / 2)
  else
    if bbNc s betaSquare gamma gammaSquare mass > 50 then
      let RLAMED := -0.422784 - betaSquare - Real.log (zeta / Emax)
      let RLAMAX := 0.60715 + 1.1934 * RLAMED +
        (0.67794 + 0.052382 * RLAMED) * Real.exp (0.94753 + 0.74442 * RLAMED)
      let sigmaalpha :=
        if RLAMAX ≤ 1010 then
          1.975560 + 9.898841e-2 * RLAMAX - 2.828670e-4 * RLAMAX * RLAMAX +
            5.345406e-7 * RLAMAX ^ 3 - 4.942035e-10 * RLAMAX ^ 4 +
            1.729807e-13 * RLAMAX ^ 5
        else 1.871887e1 + 1.296254e-2 * RLAMAX
      let sigmaalpha := if sigmaalpha > 54.6 then 54.6 else sigmaalpha
      sigmaalpha * sigmaalpha * zeta * zeta
    else
      |s.stepSize_| *
        (bbSigma1 s betaSquare gammaSquare mass * bbE1 s * bbE1 s +
          bbSigma2 s betaSquare gammaSquare mass * bbE2 s * bbE2 s +
          bbSigma3 s betaSquare gamma gammaSquare mass *
            bbMeanE32 s betaSquare gamma gammaSquare mass)

/-- `MaterialEffects::noiseBetheBloch` (lines 463–523): adds the ionization
straggling variance, propagated from energy to charge-over-momentum by
linear error propagation, onto the (6,6) entry of the noise matrix (the
single update `noise[6*7+6] += ...` at line 522). -/
noncomputable def noiseBetheBloch (s : MEState) (noise : M7x7)
    (mom betaSquare gamma gammaSquare : ℝ) (pdg : ℤ) : M7x7 :=
  let charge := getParticleCharge pdg
  let mass := getParticleMass pdg
  let sigma2E := noiseBetheBlochSigma2E s betaSquare gamma gammaSquare charge mass * 1e-18
  fun i j =>
    if i = 6 ∧ j = 6 then noise i j + charge * charge / betaSquare / mom ^ 4 * sigma2E
    else noise i j

/-- The multiple-scattering variance `sigma2` of `MaterialEffects::noiseCoulomb`
(lines 530–544), including the final floor clamp to zero.  Model code 0 is the
GEANE model (PANDA report PV/01-07 eq. 43), model code 1 is Highland; the
source asserts the model code is 0 or 1, so the fall-through branch is
unreachable. -/
noncomputable def noiseCoulombSigma2 (s : MEState)
    (charge momSquare betaSquare : ℝ) : ℝ :=
  let step := |s.stepSize_|
  let sigma2 :=
    if s.mscModelCode_ = 0 then
      225e-6 * charge * charge / (betaSquare * momSquare) * step / s.radiationLength_ *
        s.matZ_ / (s.matZ_ + 1) * Real.log (159 * s.matZ_ ^ (-1/3 : ℝ)) /
        Real.log (287 * s.matZ_ ^ (-0.5 : ℝ))
    else if s.mscModelCode_ = 1 then
      let stepOverRadLength := step / s.radiationLength_
      let logCor := 1 + 0.038 * Real.log stepOverRadLength
      0.0136 * 0.0136 * charge * charge / (betaSquare * momSquare) *
        stepOverRadLength * logCor * logCor
    else 0
  if sigma2 > 0 then sigma2 else 0

/-- The `noiseAfter` matrix filled by `MaterialEffects::noiseCoulomb` at
lines 547–588, entry (r, c) holding `noiseAfter[r*7 + c]`.  Mirror
assignments such as `noiseAfter[0*7+1] = noiseAfter[1*7+0]` are written out
with the value of their source entry.  Note that line 558 really computes
`-sigma2 * step * 0.5 * a[0]*a[1]` for entry (5,0) — the factor is
`a[0]*a[1]`, not `a[0]*a[2]` — and this value is copied to entries (3,2),
(2,3) and (0,5) by the mirror assignments at lines 568, 573 and 583.  Row 6
and column 6 stay at the `std::fill` value `0` (line 548). -/
noncomputable def noiseCoulombAfter (sigma2 step : ℝ) (a : Fin 3 → ℝ) : M7x7 :=
  let step2 := step * step
  !![sigma2 * step2 / 3 * (1 - a 0 * a 0), -sigma2 * step2 / 3 * (a 0 * a 1),
       -sigma2 * step2 / 3 * (a 0 * a 2), sigma2 * step * 0.5 * (1 - a 0 * a 0),
       -sigma2 * step * 0.5 * (a 0 * a 1), -sigma2 * step * 0.5 * (a 0 * a 1), 0;
     -sigma2 * step2 / 3 * (a 0 * a 1), sigma2 * step2 / 3 * (1 - a 1 * a 1),
       -sigma2 * step2 / 3 * (a 1 * a 2), -sigma2 * step * 0.5 * (a 0 * a 1),
       sigma2 * step * 0.5 * (1 - a 1 * a 1), -sigma2 * step * 0.5 * (a 1 * a 2), 0;
     -sigma2 * step2 / 3 * (a 0 * a 2), -sigma2 * step2 / 3 * (a 1 * a 2),
       sigma2 * step2 / 3 * (1 - a 2 * a 2), -sigma2 * step * 0.5 * (a 0 * a 1),
       -sigma2 * step * 0.5 * (a 1 * a 2), sigma2 * step * 0.5 * (1 - a 2 * a 2), 0;
     sigma2 * step * 0.5 * (1 - a 0 * a 0), -sigma2 * step * 0.5 * (a 0 * a 1),
       -sigma2 * step * 0.5 * (a 0 * a 1), sigma2 * (1 - a 0 * a 0),
       -sigma2 * (a 0 * a 1), -sigma2 * (a 0 * a 2), 0;
     -sigma2 * step * 0.5 * (a 0 * a 1), sigma2 * step * 0.5 * (1 - a 1 * a 1),
       -sigma2 * step * 0.5 * (a 1 * a 2), -sigma2 * (a 0 * a 1),
       sigma2 * (1 - a 1 * a 1), -sigma2 * (a 1 * a 2), 0;
     -sigma2 * step * 0.5 * (a 0 * a 1), -sigma2 * step * 0.5 * (a 1 * a 2),
       sigma2 * step * 0.5 * (1 - a 2 * a 2), -sigma2 * (a 0 * a 2),
       -sigma2 * (a 1 * a 2), sigma2 * (1 - a 2 * a 2), 0;
     0, 0, 0, 0, 0, 0, 0]

/-- `MaterialEffects::noiseCoulomb` (lines 526–594): computes the scattering
variance, builds `noiseAfter` and adds it entrywise onto the noise matrix
(the loop at lines 591–593). -/
noncomputable def noiseCoulomb (s : MEState) (noise : M7x7) (direction : Fin 3 → ℝ)
    (momSquare betaSquare : ℝ) (pdg : ℤ) : M7x7 :=
  let charge := getParticleCharge pdg
  let sigma2 := noiseCoulombSigma2 s charge momSquare betaSquare
  noise + noiseCoulombAfter sigma2 |s.stepSize_| direction

/-- `MaterialEffects::noiseBrems` (lines 774–790): for electrons and
positrons only, adds the simplified Bethe–Heitler radiative-fluctuation
variance, floor-clamped to zero, onto the (6,6) entry (the single update
`noise[6*7+6] += ...` at line 789). -/
noncomputable def noiseBrems (s : MEState) (noise : M7x7)
    (momSquare betaSquare : ℝ) (pdg : ℤ) : M7x7 :=
  if pdg = 11 ∨ pdg = -11 then
    let charge := getParticleCharge pdg
    let minusXOverLn2 := -1.442695 * |s.stepSize_| / s.radiationLength_
    let sigma2E := 1.44 * ((3 : ℝ) ^ minusXOverLn2 - (4 : ℝ) ^ minusXOverLn2) * momSquare
    let sigma2E := max sigma2E 0
    fun i j =>
      if i = 6 ∧ j = 6 then
        noise i j + charge * charge / betaSquare / momSquare ^ 2 * sigma2E
      else noise i j
  else noise

/-- A successful `Except.bind` factors through a successful first component. -/
theorem exceptBind_ok {ε α β : Type} {x : Except ε α} {f : α → Except ε β} {b : β}
    (h : x.bind f = .ok b) : ∃ a, x = .ok a ∧ f a = .ok b := by
  cases x with
  | error e => exact absurd h (by simp [Except.bind])
  | ok a => exact ⟨a, rfl, h⟩

/-- A successful `Except.map` factors through a successful argument. -/
theorem exceptMap_ok {ε α β : Type} {x : Except ε α} {f : α → β} {b : β}
    (h : x.map f = .ok b) : ∃ a, x = .ok a ∧ f a = b := by
  cases x with
  | error e => exact absurd h (by simp [Except.map])
  | ok a => exact ⟨a, rfl, by simpa [Except.map] using h⟩

/-- All modelled particle masses are nonnegative. -/
theorem getParticleMass_nonneg (pdg : ℤ) : 0 ≤ getParticleMass pdg := by
  unfold getParticleMass me_
  split <;> norm_num

/-- C2 (code bug): evaluating `init` at the failing input.  Calling `init` a
second time with a distinct oracle handle raises no error and silently
replaces the first handle — the `std::runtime_error` constructed at line 85
is never thrown and the assignment at line 87 runs unconditionally — so
after `init 1` followed by `init 2` the installed handle is `2`, not `1`,
contradicting the claim that the second call fails and the first handle
stays active. -/
theorem init_second_call_overwrites_handle :
    (init (init MEState.initial 1) 2).materialInterface_ = some 2 ∧
    (init (init MEState.initial 1) 2).materialInterface_ ≠ some 1 := by
  refine ⟨rfl, ?_⟩
  simp [init]

/-- C9: `setMscModel` recognises exactly the names "GEANE" (model code 0) and
"Highland" (model code 1); for any other name it returns a fatal
configuration error, and since the exception is thrown before any assignment
the previously active model selection is unchanged (no new state is
produced). -/
theorem setMscModel_recognises_exactly_two_names (s : MEState) (name : String) :
    (name = "GEANE" → setMscModel s name = .ok { s with mscModelCode_ := 0 }) ∧
    (name = "Highland" → setMscModel s name = .ok { s with mscModelCode_ := 1 }) ∧
    (name ≠ "GEANE" → name ≠ "Highland" →
      ∃ e : GFException, setMscModel s name = .error e ∧ e.fatal = true) := by
  refine ⟨fun h => ?_, fun h => ?_, fun h1 h2 => ?_⟩
  · simp [setMscModel, h]
  · simp [setMscModel, h]
  · exact ⟨{ msg := "There is no MSC model called " ++ name, fatal := true },
      by simp [setMscModel, h1, h2], rfl⟩

/-- C9 witness: the unrecognised name "Unrecognized" yields a fatal error. -/
theorem setMscModel_unrecognized_witness :
    ∃ e : GFException,
      setMscModel MEState.initial "Unrecognized" = .error e ∧ e.fatal = true :=
  (setMscModel_recognises_exactly_two_names MEState.initial "Unrecognized").2.2
    (by decide) (by decide)

/-- C5: `dEdx` raises a fatal error when `energy <= mass`; when the
Bethe–Bloch ionization term is enabled it raises a fatal error when
`beta*gamma < 0.05` (stated on the squares, as the source compares
`betaSquare*gammaSquare < 0.05*0.05` with `gamma = energy/mass` and
`betaSquare = 1 - 1/gamma^2`); and under the preconditions `energy > mass`
and `beta*gamma >= 0.05` no error is raised. -/
theorem dEdx_validity_errors (s : MEState) (energy mass charge : ℝ) (pdg : ℤ) :
    (energy ≤ mass →
      ∃ e : GFException, dEdx s energy mass charge pdg = .error e ∧ e.fatal = true) ∧
    (mass < energy →
      (s.energyLossBetheBloch_ = true →
        (1 - 1 / (energy / mass * (energy / mass))) * (energy / mass * (energy / mass)) <
            0.05 * 0.05 →
        ∃ e : GFException, dEdx s energy mass charge pdg = .error e ∧ e.fatal = true) ∧
      (0.05 * 0.05 ≤
          (1 - 1 / (energy / mass * (energy / mass))) * (energy / mass * (energy / mass)) →
        ∃ r : ℝ, dEdx s energy mass charge pdg = .ok r)) := by
  constructor
  · intro hle
    exact ⟨{ msg := "MaterialEffects dEdx: Energy <= mass", fatal := true },
      by rw [dEdx, if_pos hle], rfl⟩
  · intro hlt
    have hnot : ¬ energy ≤ mass := not_le.mpr hlt
    constructor
    · intro hbb hsmall
      refine ⟨{ msg := "dEdxBetheBloch: beta*gamma < 0.05, Bethe-Bloch not valid anymore",
                fatal := true }, ?_, rfl⟩
      simp only [dEdx, dEdxBetheBloch]
      rw [if_neg hnot, if_pos hbb, if_pos hsmall]
      rfl
    · intro hbig
      have hok : ∀ (x : Except GFException ℝ) (f : ℝ → ℝ),
          (∃ a, x = .ok a) → ∃ r, x.map f = .ok r := by
        rintro x f ⟨a, rfl⟩; exact ⟨f a, rfl⟩
      simp only [dEdx]
      rw [if_neg hnot]
      refine hok _ _ ?_
      cases hflag : s.energyLossBetheBloch_ with
      | false => exact ⟨0, by simp⟩
      | true =>
        rw [if_pos rfl]
        simp only [dEdxBetheBloch]
        rw [if_neg (not_lt.mpr hbig)]
        exact ⟨_, rfl⟩

/-- C5 witness: with `energy = 1 < mass = 2` a fatal error is raised, and
with `energy = 2 > mass = 1` (so `beta*gamma = sqrt 3 >= 0.05`) no error is
raised. -/
theorem dEdx_validity_errors_witness :
    (∃ e : GFException, dEdx MEState.initial 1 2 1 13 = .error e ∧ e.fatal = true) ∧
    (∃ r : ℝ, dEdx MEState.initial 2 1 1 13 = .ok r) := by
  constructor
  · exact (dEdx_validity_errors MEState.initial 1 2 1 13).1 (by norm_num)
  · exact ((dEdx_validity_errors MEState.initial 2 1 1 13).2 (by norm_num)).2 (by norm_num)

/-- C3: in every successful return of `momentumLoss`, either the post-loss
energy `E0 - dE` is at or below the rest mass and the returned loss is
exactly the whole incoming momentum (the particle is modelled as stopped),
or the post-loss energy exceeds the rest mass and the returned loss is
`mom - sqrt((E0 - dE)^2 - mass^2)` with a strictly positive radicand, i.e. a
real (non-imaginary) post-loss momentum.  Here `E0 = sqrt(mom^2 + mass^2)`
is the incoming energy and `dE = stepSize_ * stepSign * dEdx_` with `dEdx_`
the mean loss rate stored in the returned state. -/
theorem momentumLoss_saturates (s : MEState) (stepSign mom : ℝ) (linear : Bool)
    (pdg : ℤ) (loss : ℝ) (s1 : MEState)
    (h : momentumLoss s stepSign mom linear pdg = .ok (loss, s1)) :
    (Real.sqrt (mom * mom + getParticleMass pdg * getParticleMass pdg) -
        s.stepSize_ * stepSign * s1.dEdx_ ≤ getParticleMass pdg → loss = mom) ∧
    (getParticleMass pdg <
        Real.sqrt (mom * mom + getParticleMass pdg * getParticleMass pdg) -
          s.stepSize_ * stepSign * s1.dEdx_ →
      loss = mom - Real.sqrt
          ((Real.sqrt (mom * mom + getParticleMass pdg * getParticleMass pdg) -
              s.stepSize_ * stepSign * s1.dEdx_) ^ 2 -
            getParticleMass pdg * getParticleMass pdg) ∧
      0 < (Real.sqrt (mom * mom + getParticleMass pdg * getParticleMass pdg) -
              s.stepSize_ * stepSign * s1.dEdx_) ^ 2 -
            getParticleMass pdg * getParticleMass pdg) := by
  have hmnn := getParticleMass_nonneg pdg
  unfold momentumLoss at h
  obtain ⟨d1, hd1, h⟩ := exceptBind_ok h
  obtain ⟨dm, hdm, h⟩ := exceptBind_ok h
  set mass := getParticleMass pdg
  set E0 := Real.sqrt (mom * mom + mass * mass) with hE0
  by_cases hstop : E0 - s.stepSize_ * stepSign * dm ≤ mass
  · rw [if_pos hstop] at h
    obtain ⟨hloss, hs1⟩ := by simpa using h
    subst hs1
    simp only [MEState.mk.injEq] at *
    constructor
    · intro _; exact hloss.symm
    · intro hgt
      exact absurd hstop (not_le.mpr (by simpa using hgt))
  · rw [if_neg hstop] at h
    obtain ⟨hloss, hs1⟩ := by simpa using h
    subst hs1
    push_neg at hstop
    constructor
    · intro hle
      exact absurd hle (not_le.mpr (by simpa using hstop))
    · intro _
      refine ⟨hloss.symm, ?_⟩
      have h1 : (0:ℝ) ≤ E0 - s.stepSize_ * stepSign * dm := le_of_lt
        (lt_of_le_of_lt hmnn (by simpa using hstop))
      nlinarith [hstop, hmnn]

/-- Binding a successful `Except` value applies the continuation. -/
theorem exceptBindOkEq {ε α β : Type} (a : α) (f : α → Except ε β) :
    (Except.ok a : Except ε α).bind f = f a := rfl

/-- State used in the `momentumLoss` witness: both energy-loss terms
disabled, unit step size, and scratch fields matching what the call
recomputes. -/
noncomputable def mlWitnessState : MEState :=
  { MEState.initial with
    energyLossBetheBloch_ := false
    energyLossBrems_ := false
    stepSize_ := 1
    E_ := Real.sqrt (1 * 1 + getParticleMass 2212 * getParticleMass 2212) }

/-- C3 witness: a proton with momentum 1 GeV and zero loss rate (both loss
terms disabled) over a unit step; `momentumLoss` succeeds with loss `0`, and
the theorem yields the real-radicand branch. -/
theorem momentumLoss_saturates_witness :
    momentumLoss mlWitnessState 1 1 true 2212 = .ok (0, mlWitnessState) ∧
    ((0:ℝ) = 1 - Real.sqrt
        ((Real.sqrt (1 * 1 + getParticleMass 2212 * getParticleMass 2212) -
            mlWitnessState.stepSize_ * 1 * mlWitnessState.dEdx_) ^ 2 -
          getParticleMass 2212 * getParticleMass 2212) ∧
      0 < (Real.sqrt (1 * 1 + getParticleMass 2212 * getParticleMass 2212) -
            mlWitnessState.stepSize_ * 1 * mlWitnessState.dEdx_) ^ 2 -
          getParticleMass 2212 * getParticleMass 2212) := by
  have hm := getParticleMass_nonneg 2212
  have hE0 : getParticleMass 2212 <
      Real.sqrt (1 * 1 + getParticleMass 2212 * getParticleMass 2212) := by
    rw [Real.lt_sqrt hm]
    nlinarith
  have hdEdx : ∀ E : ℝ, ¬ E ≤ getParticleMass 2212 →
      dEdx mlWitnessState E (getParticleMass 2212) (getParticleCharge 2212) 2212 = .ok 0 := by
    intro E hE
    simp only [dEdx]
    rw [if_neg hE]
    simp [mlWitnessState, Except.map]
  have heval : momentumLoss mlWitnessState 1 1 true 2212 = .ok (0, mlWitnessState) := by
    simp only [momentumLoss]
    rw [hdEdx _ (not_le.mpr hE0), exceptBindOkEq, if_pos trivial, exceptBindOkEq]
    rw [if_neg (show ¬ (Real.sqrt (1 * 1 + getParticleMass 2212 * getParticleMass 2212) -
      mlWitnessState.stepSize_ * 1 * 0 ≤ getParticleMass 2212) from by simpa using not_le.mpr hE0)]
    have hsq1 : Real.sqrt (1 + getParticleMass 2212 * getParticleMass 2212) ^ 2 =
        1 + getParticleMass 2212 * getParticleMass 2212 :=
      Real.sq_sqrt (by nlinarith)
    simp [mlWitnessState, MEState.initial, hsq1]
  refine ⟨heval, ?_⟩
  have := (momentumLoss_saturates mlWitnessState 1 1 true 2212 0 mlWitnessState heval).2
  exact this (by simpa [mlWitnessState, MEState.initial] using hE0)

/-- Vector-literal entry access at index 5 of a 6-vector. -/
theorem cons_val_5_6 {α : Type} (x : α) (u : Fin 5 → α) :
    Matrix.vecCons x u (5 : Fin 6) = u 4 := rfl

/-- Vector-literal entry access at index 5 of a 7-vector. -/
theorem cons_val_5_7 {α : Type} (x : α) (u : Fin 6 → α) :
    Matrix.vecCons x u (5 : Fin 7) = u 4 := rfl

/-- Vector-literal entry access at index 6 of a 7-vector. -/
theorem cons_val_6_7 {α : Type} (x : α) (u : Fin 6 → α) :
    Matrix.vecCons x u (6 : Fin 7) = u 5 := rfl

/-- Row 6 of `noiseAfter` is identically zero. -/
theorem noiseCoulombAfter_row6 (sigma2 step : ℝ) (a : Fin 3 → ℝ) (j : Fin 7) :
    noiseCoulombAfter sigma2 step a 6 j = 0 := by
  fin_cases j <;>
    simp [noiseCoulombAfter, cons_val_5_6, cons_val_5_7, cons_val_6_7,
      Matrix.cons_val_three, Matrix.cons_val_four, Matrix.vecHead, Matrix.vecTail]

/-- Column 6 of `noiseAfter` is identically zero. -/
theorem noiseCoulombAfter_col6 (sigma2 step : ℝ) (a : Fin 3 → ℝ) (i : Fin 7) :
    noiseCoulombAfter sigma2 step a i 6 = 0 := by
  fin_cases i <;>
    simp [noiseCoulombAfter, cons_val_5_6, cons_val_5_7, cons_val_6_7,
      Matrix.cons_val_three, Matrix.cons_val_four, Matrix.vecHead, Matrix.vecTail]

/-- C10: `noiseCoulomb` never modifies the charge-over-momentum row or
column of the noise matrix — every entry with row index 6 or column index 6
is unchanged (the added `noiseAfter` is zero there) — while
`noiseBetheBloch` and `noiseBrems` modify only the (6,6) diagonal entry and
leave every other entry unchanged, for all inputs and model selections. -/
theorem noise_frame (s : MEState) (noise : M7x7) (direction : Fin 3 → ℝ)
    (mom momSquare betaSquare gamma gammaSquare : ℝ) (pdg : ℤ) (i j : Fin 7) :
    (i = 6 ∨ j = 6 →
      noiseCoulomb s noise direction momSquare betaSquare pdg i j = noise i j) ∧
    (¬(i = 6 ∧ j = 6) →
      noiseBetheBloch s noise mom betaSquare gamma gammaSquare pdg i j = noise i j ∧
      noiseBrems s noise momSquare betaSquare pdg i j = noise i j) := by
  constructor
  · rintro (rfl | rfl)
    · simp only [noiseCoulomb, Matrix.add_apply, noiseCoulombAfter_row6, add_zero]
    · simp only [noiseCoulomb, Matrix.add_apply, noiseCoulombAfter_col6, add_zero]
  · intro h
    constructor
    · simp only [noiseBetheBloch]
      rw [if_neg h]
    · simp only [noiseBrems]
      split
      · exact if_neg h
      · rfl

/-- C10 witness: at concrete inputs, entry (6,0) is unchanged by
`noiseCoulomb`, `noiseBetheBloch` and `noiseBrems`. -/
theorem noise_frame_witness :
    (noiseCoulomb MEState.initial 0 ![1, 0, 0] 1 1 13 6 0 = (0 : M7x7) 6 0) ∧
    (noiseBetheBloch MEState.initial 0 1 1 1 1 13 6 0 = (0 : M7x7) 6 0 ∧
     noiseBrems MEState.initial 0 1 1 13 6 0 = (0 : M7x7) 6 0) :=
  ⟨(noise_frame MEState.initial 0 ![1, 0, 0] 1 1 1 1 1 13 6 0).1 (Or.inl rfl),
   (noise_frame MEState.initial 0 ![1, 0, 0] 1 1 1 1 1 13 6 0).2 (by decide)⟩

/-- State for the multiple-scattering counterexample: Highland model
selected, unit step size, unit radiation length. -/
noncomputable def c1state : MEState :=
  { MEState.initial with mscModelCode_ := 1, stepSize_ := 1, radiationLength_ := 1 }

/-- Unit direction vector (√2/2, 0, √2/2). -/
noncomputable def c1dir : Fin 3 → ℝ := ![Real.sqrt 2 / 2, 0, Real.sqrt 2 / 2]

/-- Probe vector: position part (−1, 0, −1), direction part (1, 0, 1),
charge-over-momentum component 0. -/
noncomputable def c1vec : Fin 7 → ℝ := ![-1, 0, -1, 1, 0, 1, 0]

/-- C1 (code bug): evaluation of the code at the failing input.  Under the
Highland model with unit step length, unit radiation length,
`betaSquare = momSquare = 1` and a muon (charge² = 1), the direction
(√2/2, 0, √2/2) is a unit vector, yet the quadratic form of the block that
`noiseCoulomb` adds (applied here to the zero matrix) at the probe vector
(−1, 0, −1, 1, 0, 1, 0) is negative — so the added 6×6 position/direction
block is symmetric but not positive semidefinite.  The cause is line 558 of
the source, which fills entry (5,0) = Cov(a_z, x) with
`-sigma2 * step * 0.5 * a[0]*a[1]` where the axis-exchange symmetry the code
itself documents (lines 562, 568, 569) requires the factor `a[0]*a[2]`. -/
theorem noiseCoulomb_psd_fails :
    (c1dir 0 * c1dir 0 + c1dir 1 * c1dir 1 + c1dir 2 * c1dir 2 = 1) ∧
    Matrix.dotProduct c1vec
      (Matrix.mulVec (noiseCoulomb c1state 0 c1dir 1 1 13) c1vec) < 0 := by
  have h2 : Real.sqrt 2 * Real.sqrt 2 = 2 := Real.mul_self_sqrt (by norm_num)
  constructor
  · simp [c1dir]
    nlinarith [h2]
  · have hch : getParticleCharge 13 = -1 := rfl
    have hsig : noiseCoulombSigma2 c1state (getParticleCharge 13) 1 1 =
        0.0136 * 0.0136 := by
      simp only [noiseCoulombSigma2, c1state, MEState.initial, hch]
      norm_num [Real.log_one]
    have habs : |c1state.stepSize_| = 1 := by
      simp [c1state, MEState.initial]
    have hmain : Matrix.dotProduct c1vec
        (Matrix.mulVec (noiseCoulomb c1state 0 c1dir 1 1 13) c1vec) =
        -(0.0136 * 0.0136) := by
      simp only [noiseCoulomb, hsig, habs, zero_add]
      simp [Matrix.dotProduct, Matrix.mulVec, Fin.sum_univ_seven,
        noiseCoulombAfter, c1vec, c1dir, cons_val_5_6, cons_val_5_7, cons_val_6_7,
        Matrix.cons_val_three, Matrix.cons_val_four, Matrix.vecHead, Matrix.vecTail]
      ring_nf
      nlinarith [h2]
    rw [hmain]
    norm_num

/-- One recorded sub-step (`RKStep`/`MatStep` of the source): its signed
path length `matStep_.stepSize_`, the direction components
`state7_[3..5]` of its state vector, and the material properties in effect
(`matStep_.materialProperties_`). -/
structure RKStepM where
  stepSize_ : ℝ
  dir : Fin 3 → ℝ
  matDensity : ℝ
  matZ : ℝ
  matA : ℝ
  radiationLength : ℝ
  mEE : ℝ

/-- The loop over sub-steps of `MaterialEffects::effects` (lines 141–196).
Each sub-step with non-negligible path length loads its material into the
scratch state (line 164); for non-vacuum material (Z > 1e-3) the RK4
momentum loss is accumulated (line 168) and, when noise is requested, the
three noise contributions are applied (lines 170–192) using the mid-step
energy `E_` stored by `momentumLoss` (fatal if that energy is at or below
the rest mass, line 172). -/
noncomputable def effectsLoop (mom : ℝ) (pdg : ℤ) (doNoise : Bool) :
    List RKStepM → ℝ → MEState → M7x7 → Except GFException (ℝ × MEState × M7x7)
  | [], momLoss, s, noise => .ok (momLoss, s, noise)
  | st :: rest, momLoss, s, noise =>
    if |st.stepSize_| < 1e-8 then
      effectsLoop mom pdg doNoise rest momLoss s noise
    else
      let stepSign : ℝ := if st.stepSize_ < 0 then -1 else 1
      let s1 : MEState := { s with
        stepSize_ := abs st.stepSize_
        matDensity_ := st.matDensity
        matZ_ := st.matZ
        matA_ := st.matA
        radiationLength_ := st.radiationLength
        mEE_ := st.mEE }
      if st.matZ > 1e-3 then
        (momentumLoss s1 stepSign (mom - momLoss) false pdg).bind fun r =>
          let momLoss1 := momLoss + r.1
          let s2 := r.2
          if doNoise then
            let mass := getParticleMass pdg
            if s2.E_ ≤ mass then
              .error { msg := "MaterialEffects effects: Energy <= mass", fatal := true }
            else
              let gamma := s2.E_ / mass
              let gammaSquare := gamma * gamma
              let betaSquare := 1 - 1 / gammaSquare
              let p := s2.E_ * Real.sqrt betaSquare
              let pSquare := p * p
              let noise1 := if s2.energyLossBetheBloch_ && s2.noiseBetheBloch_ then
                  noiseBetheBloch s2 noise p betaSquare gamma gammaSquare pdg
                else noise
              let noise2 := if s2.noiseCoulomb_ then
                  noiseCoulomb s2 noise1 st.dir pSquare betaSquare pdg
                else noise1
              let noise3 := if s2.energyLossBrems_ && s2.noiseBrems_ then
                  noiseBrems s2 noise2 pSquare betaSquare pdg
                else noise2
              effectsLoop mom pdg doNoise rest momLoss1 s2 noise3
          else effectsLoop mom pdg doNoise rest momLoss1 s2 noise
      else effectsLoop mom pdg doNoise rest momLoss s1 noise

/-- `MaterialEffects::effects` (lines 108–205).  The list `steps` is the
iterator range `materialsFXStart..materialsFXStop` of the source; `noise`
is the optional noise matrix (`doNoise = noise != nullptr`).  Returns 0
immediately when effects are disabled (line 128); throws a
`std::runtime_error` when the oracle handle was never installed (line 130);
and after the loop throws a fatal exception when the accumulated loss
reaches or exceeds the incoming momentum (lines 198–202). -/
noncomputable def effects (s : MEState) (steps : List RKStepM) (mom : ℝ) (pdg : ℤ)
    (noise : Option M7x7) : Except GFException (ℝ × MEState × Option M7x7) :=
  if s.noEffects_ then .ok (0, s, noise)
  else if s.materialInterface_ = none then
    .error { msg := "MaterialEffects has not been initialized with a material interface",
             fatal := false }
  else
    (effectsLoop mom pdg noise.isSome steps 0 s (noise.getD 0)).bind fun r =>
      if r.1 ≥ mom then
        .error { msg := "MaterialEffects effects: momLoss >= momentum, aborting extrapolation",
                 fatal := true }
      else .ok (r.1, r.2.1, if noise.isSome then some r.2.2 else none)

/-- C4: with material effects enabled and the oracle installed, whenever the
loop over sub-steps accumulates a total momentum loss that meets or exceeds
the starting momentum, `effects` raises a fatal error; and in every
successful return the momentum loss is strictly below the starting momentum
— the loss is never silently clamped. -/
theorem effects_fatal_on_total_loss (s : MEState) (steps : List RKStepM) (mom : ℝ)
    (pdg : ℤ) (noise : Option M7x7) (hne : s.noEffects_ = false)
    (hifc : s.materialInterface_ ≠ none) :
    (∀ ml s2 n2,
      effectsLoop mom pdg noise.isSome steps 0 s (noise.getD 0) = .ok (ml, s2, n2) →
      mom ≤ ml →
      ∃ e : GFException, effects s steps mom pdg noise = .error e ∧ e.fatal = true) ∧
    (∀ v s2 n2, effects s steps mom pdg noise = .ok (v, s2, n2) → v < mom) := by
  constructor
  · intro ml s2 n2 hloop hge
    refine ⟨{ msg := "MaterialEffects effects: momLoss >= momentum, aborting extrapolation",
              fatal := true }, ?_, rfl⟩
    simp only [effects]
    rw [if_neg (by simp [hne]), if_neg hifc, hloop, exceptBindOkEq]
    exact if_pos hge
  · intro v s2 n2 hok
    simp only [effects] at hok
    rw [if_neg (by simp [hne]), if_neg hifc] at hok
    obtain ⟨r, hr, hok⟩ := exceptBind_ok hok
    by_cases hge : r.1 ≥ mom
    · rw [if_pos hge] at hok
      exact absurd hok (by simp)
    · rw [if_neg hge] at hok
      obtain ⟨hv, -⟩ := by simpa using hok
      exact not_le.mp (hv ▸ hge)

/-- State for the `effects` witness: initialised oracle handle, default
flags. -/
noncomputable def c4state : MEState :=
  { MEState.initial with materialInterface_ := some 0 }

/-- C4 witness: with no sub-steps and zero starting momentum, the
accumulated loss 0 meets the starting momentum and `effects` raises a fatal
error. -/
theorem effects_fatal_on_total_loss_witness :
    ∃ e : GFException, effects c4state [] 0 13 none = .error e ∧ e.fatal = true :=
  (effects_fatal_on_total_loss c4state [] 0 13 none rfl (by simp [c4state])).1
    0 c4state 0 rfl le_rfl

/-- C6: a sub-step whose material has atomic number Z at or below the
vacuum threshold 1e-3 contributes exactly zero momentum loss and leaves the
noise matrix entirely unchanged, for any step length: processing it reduces
to processing the remaining sub-steps with the same accumulated loss and
the same noise matrix (only the scratch material/step fields of the state
may change). -/
theorem effectsLoop_vacuum_step (mom : ℝ) (pdg : ℤ) (doNoise : Bool)
    (st : RKStepM) (rest : List RKStepM) (momLoss : ℝ) (s : MEState) (noise : M7x7)
    (hz : st.matZ ≤ 1e-3) :
    ∃ s1 : MEState,
      effectsLoop mom pdg doNoise (st :: rest) momLoss s noise =
        effectsLoop mom pdg doNoise rest momLoss s1 noise := by
  by_cases hsmall : |st.stepSize_| < 1e-8
  · refine ⟨s, ?_⟩
    simp only [effectsLoop]
    rw [if_pos hsmall]
  · refine ⟨{ s with
      stepSize_ := abs st.stepSize_
      matDensity_ := st.matDensity
      matZ_ := st.matZ
      matA_ := st.matA
      radiationLength_ := st.radiationLength
      mEE_ := st.mEE }, ?_⟩
    simp only [effectsLoop]
    rw [if_neg hsmall, if_neg (not_lt.mpr hz)]

/-- A vacuum sub-step for the C6 witness. -/
noncomputable def c6step : RKStepM :=
  { stepSize_ := 5, dir := ![1, 0, 0], matDensity := 0, matZ := 0, matA := 0,
    radiationLength := 0, mEE := 0 }

/-- C6 witness: a 5 cm sub-step through material with Z = 0 leaves loss and
noise unchanged. -/
theorem effectsLoop_vacuum_step_witness :
    ∃ s1 : MEState,
      effectsLoop 1 13 true [c6step] 0 MEState.initial 0 =
        effectsLoop 1 13 true [] 0 s1 0 :=
  effectsLoop_vacuum_step 1 13 true c6step [] 0 MEState.initial 0 (by norm_num [c6step])

/-- Modelled from the spec: `MaterialProperties` is a value type (density,
atomic number Z, atomic mass A, radiation length X0, mean excitation energy
I), compared by value to detect a material change at a boundary; the class
itself lives outside the provided sources. -/
structure MaterialM where
  density : ℝ
  Z : ℝ
  A : ℝ
  radiationLength : ℝ
  mEE : ℝ

noncomputable instance : DecidableEq MaterialM := Classical.decEq _

/-- Modelled from the spec: the named kinds of candidate step-length limits
(the `StepLimits` class lives outside the provided sources; the spec
requires at minimum the momentum-loss and the boundary limit, plus the
externally imposed candidate maximum that `stepper` reads at entry). -/
inductive StpKind
  | sMax
  | momLoss
  | boundary
deriving DecidableEq

/-- Modelled from the spec: "StepLimits: a small set of named, signed
candidate step lengths ...; the tightest (smallest magnitude) wins".
`vals` holds the installed limits, `stepSign` the common step sign. -/
structure StepLimitsM where
  vals : StpKind → Option ℝ
  stepSign : ℝ

/-- Modelled from the spec: installing a named limit replaces exactly that
entry and no other. -/
noncomputable def setLimit (L : StepLimitsM) (k : StpKind) (v : ℝ) : StepLimitsM :=
  { L with vals := fun q => if q = k then some v else L.vals q }

/-- Modelled from the spec: the magnitude an entry contributes (an unset
entry does not constrain; a large sentinel stands for the class maximum). -/
noncomputable def limitMag (L : StepLimitsM) (k : StpKind) : ℝ :=
  |(L.vals k).getD 1e99|

/-- Modelled from the spec: the tightest (smallest-magnitude) limit. -/
noncomputable def getLowestLimitVal (L : StepLimitsM) : ℝ :=
  min (limitMag L .sMax) (min (limitMag L .momLoss) (limitMag L .boundary))

/-- Modelled from the spec: the tightest limit carrying the step sign. -/
noncomputable def getLowestLimitSignedVal (L : StepLimitsM) : ℝ :=
  L.stepSign * getLowestLimitVal L

/-- Modelled from the spec: the external material oracle
(`AbsMaterialInterface`), outside this repository.  The consecutive calls
`initTrack(position, signed direction)` and `getMaterialParameters` are one
pure lookup `getMaterial`; `findNextBoundary` returns a (possibly zero)
distance to the next material boundary. -/
structure MatOracleM where
  getMaterial : (ℝ × ℝ × ℝ) → (ℝ × ℝ × ℝ) → MaterialM
  findNextBoundary : (Fin 7 → ℝ) → ℝ → Bool → ℝ

/-- Modelled from the spec: the external trajectory propagator
(`RKTrackRep::RKPropagate`), outside this repository — pure geometry. -/
structure PropagatorM where
  RKPropagate : (Fin 7 → ℝ) → ℝ → Bool → (Fin 7 → ℝ)

/-- The minimal-increment nudge
`state7[0..2] += stepSign * minStep * state7[3..5]` (lines 253–255 and
322–324). -/
noncomputable def nudge (state7 : Fin 7 → ℝ) (sign minStep : ℝ) : Fin 7 → ℝ :=
  ![state7 0 + sign * minStep * state7 3,
    state7 1 + sign * minStep * state7 4,
    state7 2 + sign * minStep * state7 5,
    state7 3, state7 4, state7 5, state7 6]

/-- The boundary-search loop of `stepper` (lines 293–337), with the
100-iteration budget of the source as explicit fuel.  Accumulates
`stepSize_` and decrements `boundaryStep` by each found boundary distance;
stops early when boundary merging is disabled, when the accumulated size
reaches the candidate maximum, or when the material after crossing the
boundary differs from the current one. -/
noncomputable def stepperLoop (oracle : MatOracleM) (prop : PropagatorM)
    (ignoreBoundaries : Bool) (sMax stepSign minStep : ℝ) (varField : Bool)
    (currentMaterial : MaterialM) :
    ℕ → ℝ → ℝ → (Fin 7 → ℝ) → ℝ × (Fin 7 → ℝ)
  | 0, stepSizeAcc, _, state7 => (stepSizeAcc, state7)
  | n + 1, stepSizeAcc, boundaryStep, state7 =>
    let step := oracle.findNextBoundary state7 boundaryStep varField
    let acc := stepSizeAcc + step
    let boundaryStep1 := boundaryStep - step
    if ¬ ignoreBoundaries then (acc, state7)
    else if |acc| ≥ |sMax| then (acc, state7)
    else
      let state7a := prop.RKPropagate state7 step varField
      let state7b := nudge state7a stepSign minStep
      let materialAfter := oracle.getMaterial (state7b 0, state7b 1, state7b 2)
        (stepSign * state7b 3, stepSign * state7b 4, stepSign * state7b 5)
      if materialAfter ≠ currentMaterial then (acc, state7b)
      else stepperLoop oracle prop ignoreBoundaries sMax stepSign minStep varField
        currentMaterial n acc boundaryStep1 state7b

/-- `MaterialEffects::stepper` (lines 208–343).  Checks, in source order:
fatal if the momentum is below the 4 MeV minimum; no-op if effects are
disabled; error if the oracle handle was never installed; if the
accumulated relative momentum loss already exceeds the 1% cap, install a
zero momentum-loss limit and return.  Otherwise probe the material one
minimal increment ahead, derive the momentum-loss limit (the division by a
vanishing loss rate yields IEEE +infinity in the source, modelled by a huge
sentinel), run the boundary search, install the boundary limit and update
the relative-loss accumulator with the tightest of all limits.  Returns the
updated instance state, trial state vector, relative loss accumulator,
current material and limit set. -/
noncomputable def stepper (oracle : MatOracleM) (prop : PropagatorM) (s : MEState)
    (state7 : Fin 7 → ℝ) (mom relMomLoss : ℝ) (pdg : ℤ)
    (currentMaterial : MaterialM) (limits : StepLimitsM) (varField : Bool) :
    Except GFException (MEState × (Fin 7 → ℝ) × ℝ × MaterialM × StepLimitsM) :=
  let maxRelMomLoss : ℝ := 0.01
  let Pmin : ℝ := 4e-3
  let minStep : ℝ := 1e-4
  if mom < Pmin then
    .error { msg := "MaterialEffects stepper: momentum too low", fatal := true }
  else if s.noEffects_ then .ok (s, state7, relMomLoss, currentMaterial, limits)
  else if s.materialInterface_ = none then
    .error { msg := "MaterialEffects has not been initialized with a material interface",
             fatal := false }
  else if relMomLoss > maxRelMomLoss then
    .ok (s, state7, relMomLoss, currentMaterial, setLimit limits .momLoss 0)
  else
    let sMax0 := getLowestLimitSignedVal limits
    if |sMax0| < minStep then .ok (s, state7, relMomLoss, currentMaterial, limits)
    else
      let state7a := nudge state7 limits.stepSign minStep
      let mat := oracle.getMaterial (state7a 0, state7a 1, state7a 2)
        (limits.stepSign * state7a 3, limits.stepSign * state7a 4,
         limits.stepSign * state7a 5)
      let s1 : MEState := { s with
        matDensity_ := mat.density
        matZ_ := mat.Z
        matA_ := mat.A
        radiationLength_ := mat.radiationLength
        mEE_ := mat.mEE
        stepSize_ := 1 }
      (if mat.Z > 1e-3 then
          (momentumLoss s1 limits.stepSign mom true pdg).map fun r => (r.1 / mom, r.2)
        else .ok ((0 : ℝ), s1)).bind fun q =>
        let relMomLossPer_cm := q.1
        let s2 := q.2
        let maxStepMomLoss :=
          if relMomLossPer_cm = 0 then (1e99 : ℝ)
          else |(maxRelMomLoss - |relMomLoss|) / relMomLossPer_cm|
        let limits1 := setLimit limits .momLoss maxStepMomLoss
        let sMax := getLowestLimitSignedVal limits1
        let s3 := { s2 with stepSize_ := limits1.stepSign * minStep }
        let lp := stepperLoop oracle prop s3.ignoreBoundariesBetweenEqualMaterials_
          sMax limits1.stepSign minStep varField mat 100 s3.stepSize_ sMax state7a
        let s4 := { s3 with stepSize_ := lp.1 }
        let limits2 := setLimit limits1 .boundary lp.1
        let relMomLoss1 := relMomLoss + relMomLossPer_cm * getLowestLimitVal limits2
        .ok (s4, lp.2, relMomLoss1, mat, limits2)

/-- C7: when the accumulated relative momentum loss already exceeds the 1%
cap (and the preceding momentum/enable/initialisation checks pass),
`stepper` installs a zero-length momentum-loss limit and returns
immediately: the instance state, the trial state vector, the relative-loss
accumulator and the current material are all unchanged, the limit set gains
exactly the zero momentum-loss entry and nothing else, and the result does
not depend on the material oracle or the propagator — no oracle query is
made. -/
theorem stepper_cap_exceeded (oracle oracle2 : MatOracleM) (prop prop2 : PropagatorM)
    (s : MEState) (state7 : Fin 7 → ℝ) (mom relMomLoss : ℝ) (pdg : ℤ)
    (currentMaterial : MaterialM) (limits : StepLimitsM) (varField : Bool)
    (hmom : ¬ mom < 4e-3) (hne : s.noEffects_ = false)
    (hifc : s.materialInterface_ ≠ none) (hcap : relMomLoss > 0.01) :
    stepper oracle prop s state7 mom relMomLoss pdg currentMaterial limits varField =
      .ok (s, state7, relMomLoss, currentMaterial, setLimit limits .momLoss 0) ∧
    stepper oracle prop s state7 mom relMomLoss pdg currentMaterial limits varField =
      stepper oracle2 prop2 s state7 mom relMomLoss pdg currentMaterial limits
        varField := by
  have h : ∀ (o : MatOracleM) (p : PropagatorM),
      stepper o p s state7 mom relMomLoss pdg currentMaterial limits varField =
        .ok (s, state7, relMomLoss, currentMaterial, setLimit limits .momLoss 0) := by
    intro o p
    simp only [stepper]
    rw [if_neg hmom, if_neg (by simp [hne]), if_neg hifc, if_pos hcap]
  exact ⟨h oracle prop, (h oracle prop).trans (h oracle2 prop2).symm⟩

/-- A trivial oracle for the C7 witness. -/
noncomputable def c7oracle : MatOracleM :=
  { getMaterial := fun _ _ => { density := 0, Z := 0, A := 0, radiationLength := 0, mEE := 0 }
    findNextBoundary := fun _ _ _ => 0 }

/-- A second, different trivial oracle for the C7 witness. -/
noncomputable def c7oracle2 : MatOracleM :=
  { getMaterial := fun _ _ => { density := 1, Z := 1, A := 1, radiationLength := 1, mEE := 1 }
    findNextBoundary := fun _ _ _ => 1 }

/-- A trivial propagator for the C7 witness. -/
noncomputable def c7prop : PropagatorM := { RKPropagate := fun v _ _ => v }

/-- An empty limit set with positive step sign for the C7 witness. -/
noncomputable def c7limits : StepLimitsM := { vals := fun _ => none, stepSign := 1 }

/-- C7 witness: with momentum 1 GeV, effects enabled, the oracle installed
and an accumulated relative loss of 2% (above the 1% cap), `stepper`
returns immediately with only the zero momentum-loss limit installed, and
the result is oracle-independent. -/
theorem stepper_cap_exceeded_witness :
    stepper c7oracle c7prop c4state ![0, 0, 0, 1, 0, 0, 1] 1 0.02 13
        { density := 0, Z := 0, A := 0, radiationLength := 0, mEE := 0 }
        c7limits false =
      .ok (c4state, ![0, 0, 0, 1, 0, 0, 1], 0.02,
        { density := 0, Z := 0, A := 0, radiationLength := 0, mEE := 0 },
        setLimit c7limits .momLoss 0) ∧
    stepper c7oracle c7prop c4state ![0, 0, 0, 1, 0, 0, 1] 1 0.02 13
        { density := 0, Z := 0, A := 0, radiationLength := 0, mEE := 0 }
        c7limits false =
      stepper c7oracle2 c7prop c4state ![0, 0, 0, 1, 0, 0, 1] 1 0.02 13
        { density := 0, Z := 0, A := 0, radiationLength := 0, mEE := 0 }
        c7limits false :=
  stepper_cap_exceeded c7oracle c7oracle2 c7prop c7prop c4state
    ![0, 0, 0, 1, 0, 0, 1] 1 0.02 13
    { density := 0, Z := 0, A := 0, radiationLength := 0, mEE := 0 }
    c7limits false (by norm_num) rfl (by simp [c4state]) (by norm_num)

/-- Rational bounds for `exp (313/800)` from the order-8 Taylor sum. -/
theorem exp_313_800_bounds :
    (1.4788281 : ℝ) < Real.exp (313/800) ∧ Real.exp (313/800) < 1.4788282 := by
  have h := @Real.exp_bound (313/800) (by rw [abs_of_nonneg] <;> norm_num) 8 (by norm_num)
  rw [abs_of_nonneg (by norm_num : (0:ℝ) ≤ 313/800), abs_sub_le_iff] at h
  obtain ⟨h1, h2⟩ := h
  simp only [Finset.sum_range_succ, Finset.sum_range_zero, Nat.factorial] at h1 h2
  norm_num at h1 h2
  constructor <;> linarith

/-- Rational bounds for `exp (157/400)` from the order-8 Taylor sum. -/
theorem exp_157_400_bounds :
    (1.4806778 : ℝ) < Real.exp (157/400) ∧ Real.exp (157/400) < 1.4806779 := by
  have h := @Real.exp_bound (157/400) (by rw [abs_of_nonneg] <;> norm_num) 8 (by norm_num)
  rw [abs_of_nonneg (by norm_num : (0:ℝ) ≤ 157/400), abs_sub_le_iff] at h
  obtain ⟨h1, h2⟩ := h
  simp only [Finset.sum_range_succ, Finset.sum_range_zero, Nat.factorial] at h1 h2
  norm_num at h1 h2
  constructor <;> linarith

/-- `exp 3.13 < 22.88`, by eighth powers. -/
theorem exp_313_100_lt : Real.exp (313/100) < 22.88 := by
  have h8 : Real.exp (313/100) = Real.exp (313/800) ^ (8:ℕ) := by
    rw [← Real.exp_nat_mul]
    norm_num
  rw [h8]
  calc Real.exp (313/800) ^ (8:ℕ) < (1.4788282:ℝ) ^ (8:ℕ) :=
        pow_lt_pow_left₀ exp_313_800_bounds.2 (le_of_lt (Real.exp_pos _)) (by norm_num)
    _ < 22.88 := by norm_num

/-- `23.103 < exp 3.14`, by eighth powers. -/
theorem lt_exp_314_100 : (23.103 : ℝ) < Real.exp (314/100) := by
  have h8 : Real.exp (314/100) = Real.exp (157/400) ^ (8:ℕ) := by
    rw [← Real.exp_nat_mul]
    norm_num
  rw [h8]
  calc (23.103:ℝ) < (1.4806778:ℝ) ^ (8:ℕ) := by norm_num
    _ ≤ Real.exp (157/400) ^ (8:ℕ) :=
        pow_le_pow_left₀ (by norm_num) (le_of_lt exp_157_400_bounds.1) 8

/-- Rational bounds for `2 ^ 0.9` (the factor `pow(matZ_, 0.9)` of the
Urban model at Z = 2), via its tenth power `2^9 = 512`. -/
theorem rpow_two_09_bounds :
    (1.866065 : ℝ) < (2:ℝ) ^ (0.9:ℝ) ∧ (2:ℝ) ^ (0.9:ℝ) < 1.866066 := by
  have hpos : (0:ℝ) < (2:ℝ) ^ (0.9:ℝ) := Real.rpow_pos_of_pos (by norm_num) _
  have h10 : ((2:ℝ) ^ (0.9:ℝ)) ^ (10:ℕ) = 512 := by
    rw [← Real.rpow_natCast ((2:ℝ) ^ (0.9:ℝ)) 10, ← Real.rpow_mul (by norm_num)]
    rw [show (0.9:ℝ) * (10:ℕ) = ((9:ℕ):ℝ) by norm_num, Real.rpow_natCast]
    norm_num
  constructor
  · by_contra hc
    push_neg at hc
    have h2 : ((2:ℝ) ^ (0.9:ℝ)) ^ (10:ℕ) ≤ (1.866065:ℝ) ^ (10:ℕ) :=
      pow_le_pow_left₀ (le_of_lt hpos) hc 10
    rw [h10] at h2
    norm_num at h2
  · by_contra hc
    push_neg at hc
    have h2 : (1.866066:ℝ) ^ (10:ℕ) ≤ ((2:ℝ) ^ (0.9:ℝ)) ^ (10:ℕ) :=
      pow_le_pow_left₀ (by norm_num) hc 10
    rw [h10] at h2
    norm_num at h2

/-- Material/kinematics state for the straggling counterexample: Z = 2,
A = 4, density 1e-3, mean excitation energy 19.2 eV, and stored mean loss
rate 2.5e-4 GeV/cm (the Bethe–Bloch scale for this configuration). -/
noncomputable def c8state : MEState :=
  { MEState.initial with
    matZ_ := 2
    matA_ := 4
    matDensity_ := 1e-3
    mEE_ := 19.2
    dEdx_ := 2.5e-4 }

/-- The shorter sub-step of the counterexample [cm]. -/
noncomputable def c8step1 : ℝ := 2.19e-4

/-- The longer sub-step of the counterexample [cm]. -/
noncomputable def c8step2 : ℝ := 2.2e-4

/-- Counterexample state with the shorter step installed. -/
noncomputable def c8s1 : MEState := { c8state with stepSize_ := c8step1 }

/-- Counterexample state with the longer step installed. -/
noncomputable def c8s2 : MEState := { c8state with stepSize_ := c8step2 }

/-- Lorentz factor γ = 131669/131500, giving βγ = 6669/131500 ≈ 0.0507,
inside the Bethe–Bloch validity region βγ ≥ 0.05. -/
noncomputable def c8gamma : ℝ := 131669 / 131500

/-- γ² for the γ above. -/
noncomputable def c8gamma2 : ℝ := c8gamma * c8gamma

/-- β² = 1 − 1/γ², kinematically consistent with the γ above. -/
noncomputable def c8beta2 : ℝ := 1 - 1 / c8gamma2

/-- The electron momentum m·βγ [GeV] for the kinematics above. -/
noncomputable def c8mom : ℝ := me_ * (6669 / 131500)

/-- Bounds for the Urban ionisation energy `I = 16·2^0.9` at Z = 2. -/
theorem c8_I_bounds :
    (29.85704 : ℝ) < bbUrbanI c8s1 ∧ bbUrbanI c8s1 < 29.857056 := by
  have h := rpow_two_09_bounds
  have hz : c8s1.matZ_ = (2:ℝ) := rfl
  rw [bbUrbanI, hz]
  constructor <;> nlinarith [h.1, h.2]

/-- Bounds for `Emax` at the counterexample kinematics. -/
theorem c8_Em_bounds :
    (656.721 : ℝ) < bbEmax c8beta2 c8gamma c8gamma2 me_ ∧
      bbEmax c8beta2 c8gamma c8gamma2 me_ < 656.7211 := by
  rw [bbEmax]
  norm_num [c8beta2, c8gamma2, c8gamma, me_]

/-- The absolute step size of the short-step state. -/
theorem c8_abs_step1 : |c8s1.stepSize_| = 2.19e-4 := by
  have h : c8s1.stepSize_ = (2.19e-4 : ℝ) := rfl
  rw [h, abs_of_pos (by norm_num)]

/-- The absolute step size of the long-step state. -/
theorem c8_abs_step2 : |c8s2.stepSize_| = 2.2e-4 := by
  have h : c8s2.stepSize_ = (2.2e-4 : ℝ) := rfl
  rw [h, abs_of_pos (by norm_num)]

/-- Bounds for `zeta` at the shorter step. -/
theorem c8_zeta1_bounds :
    (6.5476 : ℝ) < bbZeta c8s1 c8beta2 (-1) ∧ bbZeta c8s1 c8beta2 (-1) < 6.5477 := by
  rw [bbZeta, c8_abs_step1]
  have hz : c8s1.matZ_ = (2:ℝ) := rfl
  have ha : c8s1.matA_ = (4:ℝ) := rfl
  have hr : c8s1.matDensity_ = (1e-3:ℝ) := rfl
  rw [hz, ha, hr]
  norm_num [c8beta2, c8gamma2, c8gamma]

/-- Bounds for `zeta` at the longer step. -/
theorem c8_zeta2_bounds :
    (6.5775 : ℝ) < bbZeta c8s2 c8beta2 (-1) ∧ bbZeta c8s2 c8beta2 (-1) < 6.5776 := by
  rw [bbZeta, c8_abs_step2]
  have hz : c8s2.matZ_ = (2:ℝ) := rfl
  have ha : c8s2.matA_ = (4:ℝ) := rfl
  have hr : c8s2.matDensity_ = (1e-3:ℝ) := rfl
  rw [hz, ha, hr]
  norm_num [c8beta2, c8gamma2, c8gamma]

/-- At the shorter step `kappa = zeta/Emax` is at or below the 0.01
threshold: the Urban branch is taken. -/
theorem c8_kappa1_not :
    ¬ (bbZeta c8s1 c8beta2 (-1) / bbEmax c8beta2 c8gamma c8gamma2 me_ > 0.01) := by
  have hz := c8_zeta1_bounds
  have he := c8_Em_bounds
  rw [not_lt, div_le_iff₀ (by linarith [he.1] : (0:ℝ) < bbEmax c8beta2 c8gamma c8gamma2 me_)]
  nlinarith [hz.2, he.1]

/-- At the longer step `kappa` exceeds 0.01: the Vavilov branch is taken. -/
theorem c8_kappa2_gt :
    bbZeta c8s2 c8beta2 (-1) / bbEmax c8beta2 c8gamma c8gamma2 me_ > 0.01 := by
  have hz := c8_zeta2_bounds
  have he := c8_Em_bounds
  rw [gt_iff_lt, lt_div_iff₀ (by linarith [he.1] : (0:ℝ) < bbEmax c8beta2 c8gamma c8gamma2 me_)]
  nlinarith [hz.1, he.2]

/-- At Z = 2 the branch `Z > 2` is not taken: `f2 = 0`. -/
theorem c8_f2 : bbF2 c8s1 = 0 := by
  rw [bbF2, if_neg]
  have hz : c8s1.matZ_ = (2:ℝ) := rfl
  rw [hz]
  norm_num

/-- With `f2 = 0`, the first oscillator energy collapses to `e1 = I`. -/
theorem c8_e1 : bbE1 c8s1 = bbUrbanI c8s1 := by
  rw [bbE1, bbF1, c8_f2, Real.rpow_zero, div_one,
    show (1:ℝ) / (1 - 0) = 1 by norm_num, Real.rpow_one]

/-- Bounds for `mbbgg2 = 2e9·m·β²γ²` at the counterexample kinematics. -/
theorem c8_mbb_bounds :
    (2628.5 : ℝ) < bbMbbgg2 c8beta2 c8gamma2 me_ ∧
      bbMbbgg2 c8beta2 c8gamma2 me_ < 2628.6 := by
  rw [bbMbbgg2]
  norm_num [c8beta2, c8gamma2, c8gamma, me_]

/-- The shared logarithm in `Sigma1`/`Sigma2` exceeds 1, so the common
denominator `log(mbbgg2/I) − β²` is positive. -/
theorem c8_X_gt : 1 < Real.log (bbMbbgg2 c8beta2 c8gamma2 me_ / bbUrbanI c8s1) := by
  have hI := c8_I_bounds
  have hm := c8_mbb_bounds
  have hIpos : (0:ℝ) < bbUrbanI c8s1 := by linarith [hI.1]
  rw [Real.lt_log_iff_exp_lt (div_pos (by linarith [hm.1]) hIpos), lt_div_iff₀ hIpos]
  nlinarith [Real.exp_one_lt_d9, hI.2, hIpos, Real.exp_pos 1, hm.1]

/-- β² of the counterexample lies strictly between 0 and 1. -/
theorem c8_beta2_mem : (0:ℝ) < c8beta2 ∧ c8beta2 < 1 := by
  constructor <;> norm_num [c8beta2, c8gamma2, c8gamma]

/-- With `e1 = I` the ratio of logarithms in `Sigma1` cancels:
`Sigma1 = dEdx·1e9·0.6 / I = 1.5e5 / I`. -/
theorem c8_S1eq : bbSigma1 c8s1 c8beta2 c8gamma2 me_ = 1.5e5 / bbUrbanI c8s1 := by
  have hY : Real.log (bbMbbgg2 c8beta2 c8gamma2 me_ / bbUrbanI c8s1) - c8beta2 ≠ 0 := by
    have hX := c8_X_gt
    have hb := c8_beta2_mem
    intro h0
    linarith [hb.2]
  rw [bbSigma1, bbF1, c8_f2, c8_e1, show c8s1.dEdx_ = (2.5e-4:ℝ) from rfl,
    mul_div_cancel_right₀ _ hY, div_mul_eq_mul_div]
  norm_num

/-- With `f2 = 0` the second-oscillator rate vanishes: `Sigma2 = 0`. -/
theorem c8_S2 : bbSigma2 c8s1 c8beta2 c8gamma2 me_ = 0 := by
  rw [bbSigma2, c8_f2]
  ring

/-- Bounds for the logarithm `log((Emax+I)/I)` entering `Sigma3`. -/
theorem c8_L_bounds :
    (3.13 : ℝ) < Real.log ((bbEmax c8beta2 c8gamma c8gamma2 me_ + bbUrbanI c8s1) /
        bbUrbanI c8s1) ∧
      Real.log ((bbEmax c8beta2 c8gamma c8gamma2 me_ + bbUrbanI c8s1) /
        bbUrbanI c8s1) < 3.14 := by
  have hI := c8_I_bounds
  have hE := c8_Em_bounds
  have hIpos : (0:ℝ) < bbUrbanI c8s1 := by linarith [hI.1]
  have hr1 : (22.9:ℝ) < (bbEmax c8beta2 c8gamma c8gamma2 me_ + bbUrbanI c8s1) /
      bbUrbanI c8s1 := by
    rw [lt_div_iff₀ hIpos]
    nlinarith [hI.2, hE.1]
  have hr2 : (bbEmax c8beta2 c8gamma c8gamma2 me_ + bbUrbanI c8s1) /
      bbUrbanI c8s1 < 23 := by
    rw [div_lt_iff₀ hIpos]
    nlinarith [hI.1, hE.2]
  constructor
  · rw [show (3.13:ℝ) = 313/100 by norm_num,
      Real.lt_log_iff_exp_lt (by linarith)]
    linarith [exp_313_100_lt]
  · rw [show (3.14:ℝ) = 314/100 by norm_num,
      Real.log_lt_iff_lt_exp (by linarith)]
    linarith [lt_exp_314_100]

/-- Bounds for `Sigma3` at the counterexample state. -/
theorem c8_S3_bounds :
    (1020 : ℝ) < bbSigma3 c8s1 c8beta2 c8gamma c8gamma2 me_ ∧
      bbSigma3 c8s1 c8beta2 c8gamma c8gamma2 me_ < 1024 := by
  have hI := c8_I_bounds
  have hE := c8_Em_bounds
  have hL := c8_L_bounds
  have hIpos : (0:ℝ) < bbUrbanI c8s1 := by linarith [hI.1]
  have hEpos : (0:ℝ) < bbEmax c8beta2 c8gamma c8gamma2 me_ := by linarith [hE.1]
  have hP1 : bbUrbanI c8s1 * (bbEmax c8beta2 c8gamma c8gamma2 me_ + bbUrbanI c8s1) <
      20499.3 := by nlinarith [hI.2, hE.2, hIpos, hEpos]
  have hP2 : (20499:ℝ) <
      bbUrbanI c8s1 * (bbEmax c8beta2 c8gamma c8gamma2 me_ + bbUrbanI c8s1) := by
    nlinarith [hI.1, hE.1]
  have hD1 : bbUrbanI c8s1 * (bbEmax c8beta2 c8gamma c8gamma2 me_ + bbUrbanI c8s1) *
      Real.log ((bbEmax c8beta2 c8gamma c8gamma2 me_ + bbUrbanI c8s1) / bbUrbanI c8s1) <
      64368 := by nlinarith [hP1, hP2, hL.1, hL.2]
  have hD2 : (64161:ℝ) <
      bbUrbanI c8s1 * (bbEmax c8beta2 c8gamma c8gamma2 me_ + bbUrbanI c8s1) *
      Real.log ((bbEmax c8beta2 c8gamma c8gamma2 me_ + bbUrbanI c8s1) / bbUrbanI c8s1) := by
    nlinarith [hP2, hL.1]
  have hDpos : (0:ℝ) <
      bbUrbanI c8s1 * (bbEmax c8beta2 c8gamma c8gamma2 me_ + bbUrbanI c8s1) *
      Real.log ((bbEmax c8beta2 c8gamma c8gamma2 me_ + bbUrbanI c8s1) / bbUrbanI c8s1) := by
    linarith [hD2]
  rw [bbSigma3, show c8s1.dEdx_ = (2.5e-4:ℝ) from rfl]
  constructor
  · rw [div_mul_eq_mul_div, lt_div_iff₀ hDpos]
    nlinarith [hD1, hE.1]
  · rw [div_mul_eq_mul_div, div_lt_iff₀ hDpos]
    nlinarith [hD2, hE.2]

/-- At the shorter step the collision count `Nc` stays at or below 50:
the Landau branch is not taken either, so the few-collision model runs. -/
theorem c8_Nc_not : ¬ (bbNc c8s1 c8beta2 c8gamma c8gamma2 me_ > 50) := by
  rw [not_lt, bbNc, c8_abs_step1, c8_S1eq, c8_S2]
  have hI := c8_I_bounds
  have hIpos : (0:ℝ) < bbUrbanI c8s1 := by linarith [hI.1]
  have hS3 := c8_S3_bounds
  have hS1 : (1.5e5:ℝ) / bbUrbanI c8s1 < 5024 := by
    rw [div_lt_iff₀ hIpos]
    nlinarith [hI.1]
  nlinarith [hS1, hS3.2]

/-- Lower bound for `Ealpha` of the few-collision model. -/
theorem c8_Ealpha_lower : (631:ℝ) < bbEalpha c8s1 c8beta2 c8gamma c8gamma2 me_ := by
  have hI := c8_I_bounds
  have hE := c8_Em_bounds
  have hIpos : (0:ℝ) < bbUrbanI c8s1 := by linarith [hI.1]
  have hSpos : (0:ℝ) < bbEmax c8beta2 c8gamma c8gamma2 me_ + bbUrbanI c8s1 := by
    linarith [hE.1]
  have hq1 : (0.95651:ℝ) * (bbEmax c8beta2 c8gamma c8gamma2 me_ + bbUrbanI c8s1) <
      bbEmax c8beta2 c8gamma c8gamma2 me_ := by nlinarith [hE.1, hI.2, hE.2]
  have hq2 : bbEmax c8beta2 c8gamma c8gamma2 me_ <
      (0.9565135:ℝ) * (bbEmax c8beta2 c8gamma c8gamma2 me_ + bbUrbanI c8s1) := by
    nlinarith [hE.2, hI.1, hE.1]
  have hd1 : (0.047312554:ℝ) <
      1 - 0.996 * bbEmax c8beta2 c8gamma c8gamma2 me_ /
        (bbEmax c8beta2 c8gamma c8gamma2 me_ + bbUrbanI c8s1) := by
    have h : 0.996 * bbEmax c8beta2 c8gamma c8gamma2 me_ /
        (bbEmax c8beta2 c8gamma c8gamma2 me_ + bbUrbanI c8s1) < 0.952687446 := by
      rw [div_lt_iff₀ hSpos]
      nlinarith [hq2]
    linarith
  have hd2 : 1 - 0.996 * bbEmax c8beta2 c8gamma c8gamma2 me_ /
      (bbEmax c8beta2 c8gamma c8gamma2 me_ + bbUrbanI c8s1) < 0.04731604 := by
    have h : (0.95268396:ℝ) < 0.996 * bbEmax c8beta2 c8gamma c8gamma2 me_ /
        (bbEmax c8beta2 c8gamma c8gamma2 me_ + bbUrbanI c8s1) := by
      rw [lt_div_iff₀ hSpos]
      nlinarith [hq1]
    linarith
  rw [bbEalpha, lt_div_iff₀ (by linarith [hd1])]
  linarith [hd2, hI.1]

/-- Lower bound for `meanE32` of the few-collision model. -/
theorem c8_meanE32_lower :
    (18764:ℝ) < bbMeanE32 c8s1 c8beta2 c8gamma c8gamma2 me_ := by
  have hI := c8_I_bounds
  have hE := c8_Em_bounds
  have hEa := c8_Ealpha_lower
  have hIpos : (0:ℝ) < bbUrbanI c8s1 := by linarith [hI.1]
  have hEpos : (0:ℝ) < bbEmax c8beta2 c8gamma c8gamma2 me_ := by linarith [hE.1]
  have hP2 : (20499:ℝ) <
      bbUrbanI c8s1 * (bbEmax c8beta2 c8gamma c8gamma2 me_ + bbUrbanI c8s1) := by
    nlinarith [hI.1, hE.1]
  have hq : (31.2141:ℝ) <
      bbUrbanI c8s1 * (bbEmax c8beta2 c8gamma c8gamma2 me_ + bbUrbanI c8s1) /
        bbEmax c8beta2 c8gamma c8gamma2 me_ := by
    rw [lt_div_iff₀ hEpos]
    nlinarith [hP2, hE.2]
  have hEd : (601.14:ℝ) < bbEalpha c8s1 c8beta2 c8gamma c8gamma2 me_ - bbUrbanI c8s1 := by
    linarith [hI.2]
  rw [bbMeanE32]
  nlinarith [hq, hEd]

/-- Few-collision lower bound: the straggling variance at the shorter
step exceeds 5170 eV². -/
theorem c8_sigma2E_s1_lower :
    (5170:ℝ) < noiseBetheBlochSigma2E c8s1 c8beta2 c8gamma c8gamma2 (-1) me_ := by
  simp only [noiseBetheBlochSigma2E]
  rw [if_neg c8_kappa1_not, if_neg c8_Nc_not, c8_abs_step1, c8_S1eq, c8_S2, c8_e1]
  have hI := c8_I_bounds
  have hIpos : (0:ℝ) < bbUrbanI c8s1 := by linarith [hI.1]
  have hS1I : 1.5e5 / bbUrbanI c8s1 * bbUrbanI c8s1 * bbUrbanI c8s1 =
      1.5e5 * bbUrbanI c8s1 := by
    field_simp
  rw [hS1I]
  have hS3 := c8_S3_bounds
  have hM := c8_meanE32_lower
  have h3 : (1020:ℝ) * 18764 < bbSigma3 c8s1 c8beta2 c8gamma c8gamma2 me_ *
      bbMeanE32 c8s1 c8beta2 c8gamma c8gamma2 me_ :=
    mul_lt_mul'' hS3.1 hM (by norm_num) (by norm_num)
  nlinarith [h3, hI.1]

/-- Vavilov upper bound: the straggling variance at the longer step stays
below 4320 eV². -/
theorem c8_sigma2E_s2_upper :
    noiseBetheBlochSigma2E c8s2 c8beta2 c8gamma c8gamma2 (-1) me_ < 4320 := by
  simp only [noiseBetheBlochSigma2E]
  rw [if_pos c8_kappa2_gt]
  have hz := c8_zeta2_bounds
  have he := c8_Em_bounds
  have hb := c8_beta2_mem
  have hzpos : (0:ℝ) < bbZeta c8s2 c8beta2 (-1) := by linarith [hz.1]
  have hepos : (0:ℝ) < bbEmax c8beta2 c8gamma c8gamma2 me_ := by linarith [he.1]
  have h1 : bbZeta c8s2 c8beta2 (-1) * bbEmax c8beta2 c8gamma c8gamma2 me_ < 4320 := by
    nlinarith [hz.1, hz.2, he.1, he.2]
  nlinarith [h1, mul_nonneg (mul_pos hzpos hepos).le hb.1.le]

/-- Evaluation of the single entry `noiseBetheBloch` writes: the (6,6)
entry is the previous value plus `charge²/β²/mom⁴ · sigma2E · 1e-18`. -/
theorem noiseBetheBloch_apply_66 (s : MEState) (noise : M7x7)
    (mom betaSquare gamma gammaSquare : ℝ) (pdg : ℤ) :
    noiseBetheBloch s noise mom betaSquare gamma gammaSquare pdg 6 6 =
      noise 6 6 + getParticleCharge pdg * getParticleCharge pdg / betaSquare / mom ^ 4 *
        (noiseBetheBlochSigma2E s betaSquare gamma gammaSquare
          (getParticleCharge pdg) (getParticleMass pdg) * 1e-18) := by
  simp [noiseBetheBloch]

/-- **C8** — The claim that the charge-over-momentum variance increment
added by `noiseBetheBloch` strictly increases with the step length is
false.  At fixed material (Z = 2, A = 4, density 1e-3) and fixed electron
kinematics inside the model's validity range (γ = 131669/131500, βγ ≈
0.0507 ≥ 0.05, energy > mass), growing the step from 2.19e-4 cm to
2.2e-4 cm pushes `kappa = zeta/Emax` across the 0.01 threshold, switching
from the few-collision Urban regime to the Vavilov regime, and the added
(6,6) variance *drops* (≈5.17e3 eV² to ≈4.31e3 eV² before propagation):
the increment is discontinuous and non-monotone in the step length. -/
theorem noiseBetheBloch_not_monotone_in_step :
    c8s1.stepSize_ < c8s2.stepSize_ ∧ (0:ℝ) < c8s1.stepSize_ ∧
      noiseBetheBloch c8s2 0 c8mom c8beta2 c8gamma c8gamma2 11 6 6 <
        noiseBetheBloch c8s1 0 c8mom c8beta2 c8gamma c8gamma2 11 6 6 := by
  refine ⟨?_, ?_, ?_⟩
  · rw [show c8s1.stepSize_ = (2.19e-4:ℝ) from rfl,
      show c8s2.stepSize_ = (2.2e-4:ℝ) from rfl]
    norm_num
  · rw [show c8s1.stepSize_ = (2.19e-4:ℝ) from rfl]
    norm_num
  · have hc : getParticleCharge 11 = -1 := rfl
    have hm : getParticleMass 11 = me_ := rfl
    rw [noiseBetheBloch_apply_66, noiseBetheBloch_apply_66, hc, hm,
      Matrix.zero_apply, zero_add, zero_add]
    have hK : (0:ℝ) < (-1) * (-1) / c8beta2 / c8mom ^ 4 := by
      have hb := c8_beta2_mem
      have hmom : (0:ℝ) < c8mom := by norm_num [c8mom, me_]
      have h4 : (0:ℝ) < c8mom ^ 4 := by positivity
      rw [show ((-1:ℝ)) * (-1) = 1 by norm_num]
      exact div_pos (div_pos one_pos hb.1) h4
    have hlt : noiseBetheBlochSigma2E c8s2 c8beta2 c8gamma c8gamma2 (-1) me_ * 1e-18 <
        noiseBetheBlochSigma2E c8s1 c8beta2 c8gamma c8gamma2 (-1) me_ * 1e-18 := by
      nlinarith [c8_sigma2E_s2_upper, c8_sigma2E_s1_lower]
    exact mul_lt_mul_of_pos_left hlt hK

/-- **C8 (amended)** — Within a single regime the claim holds: if the
shorter step already has `kappa = zeta/Emax` above the 0.01 threshold
(the Vavilov branch), then for a longer step the (6,6) variance increment
of `noiseBetheBloch` is strictly larger.  Hypotheses: positive steps,
`0 < β² < 2`, positive `Emax` and momentum, nonzero charge. -/
theorem noiseBetheBloch_strictMono_vavilov (s : MEState) (noise : M7x7)
    (st1 st2 mom betaSquare gamma gammaSquare : ℝ) (pdg : ℤ)
    (h01 : 0 < st1) (h12 : st1 < st2)
    (hb : 0 < betaSquare) (hb2 : betaSquare < 2)
    (hEm : 0 < bbEmax betaSquare gamma gammaSquare (getParticleMass pdg))
    (hq : getParticleCharge pdg ≠ 0) (hmom : 0 < mom)
    (hk : bbZeta { s with stepSize_ := st1 } betaSquare (getParticleCharge pdg) /
      bbEmax betaSquare gamma gammaSquare (getParticleMass pdg) > 0.01) :
    noiseBetheBloch { s with stepSize_ := st1 } noise mom betaSquare gamma gammaSquare pdg 6 6 <
      noiseBetheBloch { s with stepSize_ := st2 } noise mom betaSquare gamma gammaSquare pdg 6 6 := by
  set c := getParticleCharge pdg with hcdef
  set m := getParticleMass pdg with hmdef
  set B := 153.4e3 * c * c / betaSquare * s.matZ_ / s.matA_ * s.matDensity_ with hBdef
  have hz1 : bbZeta { s with stepSize_ := st1 } betaSquare c = B * st1 := by
    rw [bbZeta, abs_of_pos h01]
  have hz2 : bbZeta { s with stepSize_ := st2 } betaSquare c = B * st2 := by
    rw [bbZeta, abs_of_pos (lt_trans h01 h12)]
  rw [gt_iff_lt, lt_div_iff₀ hEm, hz1] at hk
  have hz1pos : 0 < B * st1 := lt_trans (by positivity) hk
  have hB : 0 < B := by nlinarith [hz1pos, h01]
  have hzlt : B * st1 < B * st2 := by nlinarith [hB, h12]
  have hk2 : bbZeta { s with stepSize_ := st2 } betaSquare c /
      bbEmax betaSquare gamma gammaSquare m > 0.01 := by
    rw [gt_iff_lt, lt_div_iff₀ hEm, hz2]
    linarith
  have hk1 : bbZeta { s with stepSize_ := st1 } betaSquare c /
      bbEmax betaSquare gamma gammaSquare m > 0.01 := by
    rw [gt_iff_lt, lt_div_iff₀ hEm, hz1]
    linarith
  rw [noiseBetheBloch_apply_66, noiseBetheBloch_apply_66, ← hcdef, ← hmdef]
  have hK : 0 < c * c / betaSquare / mom ^ 4 := by
    have hc2 : 0 < c * c := mul_self_pos.mpr hq
    positivity
  have hhalf : (0:ℝ) < 1 - betaSquare / 2 := by linarith
  have hs2E : noiseBetheBlochSigma2E { s with stepSize_ := st1 } betaSquare gamma
        gammaSquare c m <
      noiseBetheBlochSigma2E { s with stepSize_ := st2 } betaSquare gamma gammaSquare c m := by
    simp only [noiseBetheBlochSigma2E]
    rw [if_pos hk1, if_pos hk2, hz1, hz2]
    nlinarith [hzlt, mul_pos hEm hhalf]
  have hlt : noiseBetheBlochSigma2E { s with stepSize_ := st1 } betaSquare gamma
        gammaSquare c m * 1e-18 <
      noiseBetheBlochSigma2E { s with stepSize_ := st2 } betaSquare gamma gammaSquare c m *
        1e-18 := by linarith
  exact add_lt_add_left (mul_lt_mul_of_pos_left hlt hK) _

/-- Material with Z = A = density = 1 for the Vavilov-monotonicity witness. -/
noncomputable def c8wit : MEState :=
  { MEState.initial with
    matZ_ := 1
    matA_ := 1
    matDensity_ := 1 }

/-- Witness for the amended Vavilov-regime monotonicity: a muon at β² = 1,
γ = 2, γ² = 4, momentum 1 in the unit material, steps 1 → 2 cm. -/
theorem noiseBetheBloch_strictMono_vavilov_witness :
    noiseBetheBloch { c8wit with stepSize_ := 1 } 0 1 1 2 4 13 6 6 <
      noiseBetheBloch { c8wit with stepSize_ := 2 } 0 1 1 2 4 13 6 6 := by
  apply noiseBetheBloch_strictMono_vavilov c8wit 0 1 2 1 1 2 4 13
  · norm_num
  · norm_num
  · norm_num
  · norm_num
  · rw [bbEmax, show getParticleMass 13 = (0.1056583715:ℝ) from rfl]
    norm_num [me_]
  · rw [show getParticleCharge 13 = (-1:ℝ) from rfl]
    norm_num
  · norm_num
  · rw [bbZeta, bbEmax, show getParticleCharge 13 = (-1:ℝ) from rfl,
      show getParticleMass 13 = (0.1056583715:ℝ) from rfl]
    have h1 : ({ c8wit with stepSize_ := (1:ℝ) }).matZ_ = (1:ℝ) := rfl
    have h2 : ({ c8wit with stepSize_ := (1:ℝ) }).matA_ = (1:ℝ) := rfl
    have h3 : ({ c8wit with stepSize_ := (1:ℝ) }).matDensity_ = (1:ℝ) := rfl
    have h4 : ({ c8wit with stepSize_ := (1:ℝ) }).stepSize_ = (1:ℝ) := rfl
    rw [h1, h2, h3, h4, abs_one]
    norm_num [me_]

end genfit
